import Mathlib

/-!
A shallow embedding of the draft-js-demo rich-text-editor UI glue
(src/src/RichTextEditor.tsx, src/src/MyEditor.tsx and the unnamed
function-component variant), together with the capabilities of the external
editor engine that the glue relies on.  The engine (draft-js) is not part of
the repository, so its operations are modelled from the specification's
engine contract; the glue functions themselves are translated line by line
from the TypeScript source.
-/

/-- A paragraph-level content block of the engine's content model:
its key, its block type (e.g. "unstyled", "header-one") and its text. -/
structure ContentBlock where
  key : String
  blockType : String
  text : String
deriving Repr, DecidableEq

/-- `ContentBlock.getType` of the engine: the block's type string. -/
def ContentBlock.getType (b : ContentBlock) : String := b.blockType

/-- The engine's selection state, of which the glue only reads the key of the
block containing the selection's start position (`getStartKey`). -/
structure SelectionState where
  startKey : String
deriving Repr, DecidableEq

/-- `SelectionState.getStartKey` of the engine. -/
def SelectionState.getStartKey (s : SelectionState) : String := s.startKey

/-- The engine's content state: the ordered block map. -/
structure ContentState where
  blocks : List ContentBlock
deriving Repr, DecidableEq

/-- `ContentState.getBlockMap` of the engine: the ordered sequence of
content blocks. -/
def ContentState.getBlockMap (c : ContentState) : List ContentBlock := c.blocks

/-- `ContentState.hasText` of the engine: whether any block holds text. -/
def ContentState.hasText (c : ContentState) : Bool :=
  c.blocks.any (fun b => b.text != "")

/-- `ContentState.getBlockForKey` of the engine: the block with the given
key, when present in the block map. -/
def ContentState.getBlockForKey (c : ContentState) (k : String) : Option ContentBlock :=
  c.blocks.find? (fun b => b.key == k)

/-- The type read by `getBlockForKey(k).getType()` in the glue; the engine
guarantees the selection key is present, so the default is never reached on
engine-produced states. -/
def ContentState.blockTypeForKey (c : ContentState) (k : String) : String :=
  ((c.getBlockForKey k).map ContentBlock.getType).getD ""

/-- The type read by `getBlockMap().first().getType()` in the glue; the
engine guarantees a non-empty block map, so the default is never reached on
engine-produced states. -/
def ContentState.firstBlockType (c : ContentState) : String :=
  ((c.getBlockMap).head?.map ContentBlock.getType).getD ""

/-- The opaque editor-state handle held by the containers: content,
selection and the inline-style set at the current selection. -/
structure EditorState where
  content : ContentState
  selection : SelectionState
  inlineStyles : List String
deriving Repr, DecidableEq

/-- `EditorState.getCurrentContent` of the engine. -/
def EditorState.getCurrentContent (s : EditorState) : ContentState := s.content

/-- `EditorState.getSelection` of the engine. -/
def EditorState.getSelection (s : EditorState) : SelectionState := s.selection

/-- `EditorState.getCurrentInlineStyle` of the engine: the set of inline
styles active at the current selection. -/
def EditorState.getCurrentInlineStyle (s : EditorState) : List String := s.inlineStyles

/-- Modelled from the spec: the engine capability "Create an empty document
state" (`EditorState.createEmpty`).  An empty document holds a single
empty block of the default "unstyled" type, the selection sits in that
block, and no inline style is active. -/
def EditorState.createEmpty : EditorState :=
  { content := { blocks := [{ key := "b1", blockType := "unstyled", text := "" }] }
    selection := { startKey := "b1" }
    inlineStyles := [] }

namespace RichUtils

/-- Modelled from the spec: the engine capability "Given a state and a
block-type identifier, return a state with that block type applied to the
selected block(s)" (`RichUtils.toggleBlockType`).  The selected block is the
one containing the selection's start position. -/
def toggleBlockType (editorState : EditorState) (blockType : String) : EditorState :=
  { editorState with
      content :=
        { blocks :=
            editorState.content.blocks.map (fun b =>
              if b.key == editorState.selection.startKey then
                { b with blockType := blockType }
              else b) } }

/-- Modelled from the spec: the engine capability "Given a state and an
inline-style identifier, return a state with that style toggled over the
selection" (`RichUtils.toggleInlineStyle`); toggling is symmetric: apply if
absent, remove if present. -/
def toggleInlineStyle (editorState : EditorState) (inlineStyle : String) : EditorState :=
  if editorState.inlineStyles.contains inlineStyle then
    { editorState with
        inlineStyles := editorState.inlineStyles.filter (fun s => s != inlineStyle) }
  else
    { editorState with inlineStyles := editorState.inlineStyles ++ [inlineStyle] }

end RichUtils

/-- A keyboard event, of which the glue only reads the key code
(9 is the Tab key). -/
structure KeyEvent where
  keyCode : Nat
deriving Repr, DecidableEq

/-- The static block-type catalog `BLOCK_TYPES` of RichTextEditor.tsx:
label and styleId of each block-level control. -/
structure BlockType where
  label : String
  style : String
deriving Repr, DecidableEq

/-- The `BLOCK_TYPES` catalog, in source order. -/
def BLOCK_TYPES : List BlockType :=
  [ { label := "H1", style := "header-one" }
  , { label := "H2", style := "header-two" }
  , { label := "H3", style := "header-three" }
  , { label := "H4", style := "header-four" }
  , { label := "H5", style := "header-five" }
  , { label := "H6", style := "header-six" }
  , { label := "Blockquote", style := "blockquote" }
  , { label := "Code Block", style := "code-block" }
  , { label := "UL", style := "unordered-list-item" }
  , { label := "OL", style := "ordered-list-item" } ]

/-- The static inline-style catalog `INLINE_STYLES`. -/
def INLINE_STYLES : List BlockType :=
  [ { label := "Bold", style := "BOLD" }
  , { label := "Italic", style := "ITALIC" }
  , { label := "Underline", style := "UNDERLINE" }
  , { label := "Monospace", style := "CODE" } ]

/-- The rendered view of one `StyleButton`: its label, its styleId and
whether it carries the active marker. -/
structure StyleButtonView where
  label : String
  style : String
  active : Bool
deriving Repr, DecidableEq

/-- `BlockStyleControls` of RichTextEditor.tsx: one button per catalog
entry, active exactly when the entry's styleId equals the type of the block
containing the selection's start position. -/
def BlockStyleControls (editorState : EditorState) : List StyleButtonView :=
  let selection := editorState.getSelection
  let blockType :=
    editorState.getCurrentContent.blockTypeForKey selection.getStartKey
  BLOCK_TYPES.map (fun t =>
    { label := t.label, style := t.style, active := t.style == blockType })

/-- `InlineStyleControls` of RichTextEditor.tsx: one button per catalog
entry, active exactly when the entry's styleId is in the engine's current
inline-style set. -/
def InlineStyleControls (editorState : EditorState) : List StyleButtonView :=
  let currentStyle := editorState.getCurrentInlineStyle
  INLINE_STYLES.map (fun t =>
    { label := t.label, style := t.style, active := currentStyle.contains t.style })

/-- The `classNames` helper as used by the containers: the base class plus
the conditional class when its condition holds. -/
def classNames (base : String) (conditional : String) (cond : Bool) : List String :=
  if cond then [base, conditional] else [base]

/-- The engine-provided editing surface; the containers hold a ref to it
that is null before mount and after unmount. -/
structure EditorSurface where
  id : Nat
deriving Repr, DecidableEq

/-- The rendered view of the class-component container: the two control
groups and the class list of the editor wrapper div. -/
structure RichEditorView where
  blockControls : List StyleButtonView
  inlineControls : List StyleButtonView
  editorClassNames : List String
deriving Repr, DecidableEq

namespace RichEditorClass

/-- `focus` of the class container: the list of focus calls delegated to
the mounted editing surface — empty when the ref is null (no surface
mounted), a single delegated call otherwise. -/
def focus (current : Option EditorSurface) : List EditorSurface :=
  match current with
  | some editor => [editor]
  | none => []

/-- `handleKeyCommand` of the class container.  The first argument stands
for the imported `RichUtils.handleKeyCommand` of the engine (state and
command to an updated state, or the no-change sentinel null, here `none`).
Returns the `DraftHandleValue` string together with the argument passed to
`onChange` (`none` when `onChange` is not invoked). -/
def handleKeyCommand (richUtilsHandleKeyCommand : EditorState → String → Option EditorState)
    (command : String) (editorState : EditorState) : String × Option EditorState :=
  let newState := richUtilsHandleKeyCommand editorState command
  match newState with
  | some ns => ("handled", some ns)
  | none => ("not-handled", none)

/-- `mapKeyToEditorCommand` of the class container.  `onTab` stands for the
imported `RichUtils.onTab` (event, state and max depth to a state) and
`getDefaultKeyBinding` for the engine's default key-to-command mapping.
Returns the command handed back to the engine (`none` for null) together
with the argument passed to `onChange` (`none` when `onChange` is not
invoked). -/
def mapKeyToEditorCommand (onTab : KeyEvent → EditorState → Nat → EditorState)
    (getDefaultKeyBinding : KeyEvent → Option String)
    (stateEditorState : EditorState) (e : KeyEvent) : Option String × Option EditorState :=
  if e.keyCode == 9 then
    let newEditorState := onTab e stateEditorState 4
    if newEditorState != stateEditorState then
      (none, some newEditorState)
    else
      (none, none)
  else
    (getDefaultKeyBinding e, none)

/-- `toggleBlockType` of the class container: the state handed to
`onChange` (which replaces the held handle unconditionally). -/
def toggleBlockType (stateEditorState : EditorState) (blockType : String) : EditorState :=
  RichUtils.toggleBlockType stateEditorState blockType

/-- `toggleInlineStyle` of the class container: the state handed to
`onChange`. -/
def toggleInlineStyle (stateEditorState : EditorState) (inlineStyle : String) : EditorState :=
  RichUtils.toggleInlineStyle stateEditorState inlineStyle

/-- `render` of the class container: both control groups plus the editor
wrapper's class list, where the placeholder-hiding class is applied under
`hasText && isUnStyled` with `isUnStyled` the (misnamed) flag
`getBlockMap().first().getType() !== 'unstyled'`. -/
def render (editorState : EditorState) : RichEditorView :=
  let contentState := editorState.getCurrentContent
  let hasText := contentState.hasText
  let isUnStyled := contentState.firstBlockType != "unstyled"
  { blockControls := BlockStyleControls editorState
    inlineControls := InlineStyleControls editorState
    editorClassNames :=
      classNames "RichEditor-editor" "RichEditor-hidePlaceholder" (hasText && isUnStyled) }

end RichEditorClass

namespace RichEditorFn

/-- The `BlockValue` descriptor of the function-component variant:
label and block-type identifier of one option of the Select. -/
structure BlockValue where
  label : String
  value : String
deriving Repr, DecidableEq

/-- The `headings` options of the function-component variant. -/
def headings : List BlockValue :=
  [ { label := "H1", value := "header-one" }
  , { label := "H2", value := "header-two" }
  , { label := "H3", value := "header-three" }
  , { label := "H4", value := "header-four" }
  , { label := "H5", value := "header-five" }
  , { label := "H6", value := "header-six" } ]

/-- The `lists` options of the function-component variant. -/
def lists : List BlockValue :=
  [ { label := "UL", value := "unordered-list-item" }
  , { label := "OL", value := "ordered-list-item" } ]

/-- The `otherBlockTypes` options of the function-component variant. -/
def otherBlockTypes : List BlockValue :=
  [ { label := "Blockquote", value := "blockquote" }
  , { label := "Code Block", value := "code-block" } ]

/-- `blockTypes = otherBlockTypes.concat(headings).concat(lists)`. -/
def blockTypes : List BlockValue :=
  otherBlockTypes ++ headings ++ lists

/-- `BlockStyleControls` of the function-component variant: the option the
Select shows as its value — the first catalog entry whose identifier equals
the type of the block containing the selection's start position. -/
def BlockStyleControls (editorState : EditorState) : Option BlockValue :=
  let selection := editorState.getSelection
  let blockType :=
    editorState.getCurrentContent.blockTypeForKey selection.getStartKey
  blockTypes.find? (fun v => blockType == v.value)

/-- `focus` of the function-component variant, exactly as in the class
variant: no delegated call when the ref is null. -/
def focus (current : Option EditorSurface) : List EditorSurface :=
  match current with
  | some c => [c]
  | none => []

/-- `handleKeyCommand` of the function-component variant. -/
def handleKeyCommand (richUtilsHandleKeyCommand : EditorState → String → Option EditorState)
    (command : String) (editorState : EditorState) : String × Option EditorState :=
  let newState := richUtilsHandleKeyCommand editorState command
  match newState with
  | some ns => ("handled", some ns)
  | none => ("not-handled", none)

/-- `mapKeyToEditorCommand` of the function-component variant. -/
def mapKeyToEditorCommand (onTab : KeyEvent → EditorState → Nat → EditorState)
    (getDefaultKeyBinding : KeyEvent → Option String)
    (editorState : EditorState) (e : KeyEvent) : Option String × Option EditorState :=
  if e.keyCode == 9 then
    let newEditorState := onTab e editorState 4
    if newEditorState != editorState then
      (none, some newEditorState)
    else
      (none, none)
  else
    (getDefaultKeyBinding e, none)

/-- `toggleBlockType` of the function-component variant. -/
def toggleBlockType (editorState : EditorState) (blockType : String) : EditorState :=
  RichUtils.toggleBlockType editorState blockType

/-- `toggleInlineStyle` of the function-component variant. -/
def toggleInlineStyle (editorState : EditorState) (inlineStyle : String) : EditorState :=
  RichUtils.toggleInlineStyle editorState inlineStyle

/-- The rendered view of the function-component container. -/
structure View where
  blockSelect : Option BlockValue
  inlineControls : List StyleButtonView
  editorClassNames : List String
deriving Repr, DecidableEq

/-- `render` (the returned element tree) of the function-component variant:
the same `hasText && isUnStyled` condition guards the placeholder-hiding
class. -/
def render (editorState : EditorState) : View :=
  let contentState := editorState.getCurrentContent
  let hasText := contentState.hasText
  let isUnStyled := contentState.firstBlockType != "unstyled"
  { blockSelect := BlockStyleControls editorState
    inlineControls := InlineStyleControls editorState
    editorClassNames :=
      classNames "RichEditor-editor" "RichEditor-hidePlaceholder" (hasText && isUnStyled) }

end RichEditorFn

namespace MyEditor

/-- `handleKeyCommand` of the minimal bold-toggle demo (MyEditor.tsx):
structurally the same handler as in the rich container. -/
def handleKeyCommand (richUtilsHandleKeyCommand : EditorState → String → Option EditorState)
    (command : String) (editorState : EditorState) : String × Option EditorState :=
  let newState := richUtilsHandleKeyCommand editorState command
  match newState with
  | some ns => ("handled", some ns)
  | none => ("not-handled", none)

end MyEditor

/-- C1: in the code as written, after `toggleBlockType("header-one")` on the
empty document the H1 button is the unique active block control and the
document still has no text, but the placeholder-hiding class is absent from
the editor wrapper (`hasText && isUnStyled` is false with no text), contrary
to the claimed scenario and to the inline comment's stated intent of hiding
the placeholder. -/
theorem C1_empty_h1_eval :
    ((RichEditorClass.render
        (RichEditorClass.toggleBlockType EditorState.createEmpty "header-one")).blockControls.filter
      (fun v => v.active)) =
      [{ label := "H1", style := "header-one", active := true }]
    ∧ (RichEditorClass.render
        (RichEditorClass.toggleBlockType EditorState.createEmpty "header-one")).editorClassNames =
      ["RichEditor-editor"]
    ∧ (RichEditorClass.toggleBlockType
        EditorState.createEmpty "header-one").getCurrentContent.hasText = false := by
  refine ⟨?_, ?_, ?_⟩ <;> rfl

/-- C2: in every render of either container variant, the
placeholder-hiding class is in the editor wrapper's class list exactly
when the document has text and the first block's type is not "unstyled". -/
theorem C2_hidePlaceholder_iff (s : EditorState) :
    ("RichEditor-hidePlaceholder" ∈ (RichEditorClass.render s).editorClassNames ↔
      s.getCurrentContent.hasText = true ∧ s.getCurrentContent.firstBlockType ≠ "unstyled")
    ∧ ("RichEditor-hidePlaceholder" ∈ (RichEditorFn.render s).editorClassNames ↔
      s.getCurrentContent.hasText = true ∧ s.getCurrentContent.firstBlockType ≠ "unstyled") := by
  constructor <;>
  · simp only [RichEditorClass.render, RichEditorFn.render, classNames]
    split
    next h =>
      simp only [Bool.and_eq_true, bne_iff_ne, ne_eq] at h
      simp [h]
    next h =>
      simp only [Bool.and_eq_true, bne_iff_ne, ne_eq] at h
      simp only [List.mem_singleton]
      constructor
      · intro hmem
        exact absurd hmem (by decide)
      · intro hrhs
        exact absurd ⟨hrhs.1, hrhs.2⟩ h

/-- C3: `handleKeyCommand` (in the rich container and in the minimal demo)
returns "handled" exactly when the engine's command mapping returns a new
state rather than the null sentinel, and in that case it hands exactly that
new state to `onChange`. -/
theorem C3_handleKeyCommand_handled_iff
    (engine : EditorState → String → Option EditorState) (command : String) (s : EditorState) :
    ((RichEditorClass.handleKeyCommand engine command s).1 = "handled" ↔
      (engine s command).isSome = true)
    ∧ (∀ ns, engine s command = some ns →
        RichEditorClass.handleKeyCommand engine command s = ("handled", some ns))
    ∧ ((MyEditor.handleKeyCommand engine command s).1 = "handled" ↔
      (engine s command).isSome = true) := by
  unfold RichEditorClass.handleKeyCommand MyEditor.handleKeyCommand
  cases h : engine s command <;> simp [h]

/-- C3 witness: a constant engine that always returns a new state yields
"handled" together with that state handed to `onChange`. -/
theorem C3_witness :
    RichEditorClass.handleKeyCommand (fun s _ => some s) "bold" EditorState.createEmpty =
      ("handled", some EditorState.createEmpty) :=
  (C3_handleKeyCommand_handled_iff (fun s _ => some s) "bold" EditorState.createEmpty).2.1
    EditorState.createEmpty rfl

/-- C5: the class-component and function-component containers have
definitionally equal `toggleBlockType`, `toggleInlineStyle`,
`handleKeyCommand` and `mapKeyToEditorCommand` operations: one contract,
not two. -/
theorem C5_variants_equal :
    RichEditorClass.toggleBlockType = RichEditorFn.toggleBlockType
    ∧ RichEditorClass.toggleInlineStyle = RichEditorFn.toggleInlineStyle
    ∧ RichEditorClass.handleKeyCommand = RichEditorFn.handleKeyCommand
    ∧ RichEditorClass.mapKeyToEditorCommand = RichEditorFn.mapKeyToEditorCommand :=
  ⟨rfl, rfl, rfl, rfl⟩

/-- C9: `focus()` with a null editing-surface ref (before mount or after
unmount) performs no delegated call at all, and with a mounted surface it
delegates exactly one focus call to that surface — in both container
variants. -/
theorem C9_focus_noop :
    RichEditorClass.focus none = []
    ∧ (∀ e, RichEditorClass.focus (some e) = [e])
    ∧ RichEditorFn.focus none = []
    ∧ (∀ e, RichEditorFn.focus (some e) = [e]) :=
  ⟨rfl, fun _ => rfl, rfl, fun _ => rfl⟩

/-- C10: whenever the engine's command mapping returns the null sentinel,
`handleKeyCommand` returns "not-handled" and does not invoke `onChange`,
leaving the held handle unchanged. -/
theorem C10_not_handled_no_onChange
    (engine : EditorState → String → Option EditorState) (command : String) (s : EditorState)
    (h : engine s command = none) :
    RichEditorClass.handleKeyCommand engine command s = ("not-handled", none) := by
  unfold RichEditorClass.handleKeyCommand
  rw [h]

/-- C10 witness: the always-null engine produces "not-handled" with no
`onChange` invocation. -/
theorem C10_witness :
    RichEditorClass.handleKeyCommand (fun _ _ => none) "bold" EditorState.createEmpty =
      ("not-handled", none) :=
  C10_not_handled_no_onChange (fun _ _ => none) "bold" EditorState.createEmpty rfl

/-- C4: for Tab key events (keyCode 9) the key-binding function asks the
engine for a nesting adjustment with max depth 4, hands the result to
`onChange` exactly when it differs from the held state, and returns no
command; for every other key it returns the engine's default mapping and
never touches the state. -/
theorem C4_mapKeyToEditorCommand_spec
    (onTab : KeyEvent → EditorState → Nat → EditorState)
    (gdkb : KeyEvent → Option String) (s : EditorState) (e : KeyEvent) :
    (e.keyCode = 9 →
      (RichEditorClass.mapKeyToEditorCommand onTab gdkb s e).1 = none
      ∧ (onTab e s 4 ≠ s →
          (RichEditorClass.mapKeyToEditorCommand onTab gdkb s e).2 = some (onTab e s 4))
      ∧ (onTab e s 4 = s →
          (RichEditorClass.mapKeyToEditorCommand onTab gdkb s e).2 = none))
    ∧ (e.keyCode ≠ 9 →
      RichEditorClass.mapKeyToEditorCommand onTab gdkb s e = (gdkb e, none)) := by
  unfold RichEditorClass.mapKeyToEditorCommand
  constructor
  · intro h9
    rw [if_pos (by simp [h9])]
    by_cases hne : onTab e s 4 = s
    · rw [if_neg (by simp [hne])]
      exact ⟨rfl, fun hc => absurd hne hc, fun _ => rfl⟩
    · rw [if_pos (by simp [hne])]
      exact ⟨rfl, fun _ => rfl, fun hc => absurd hc hne⟩
  · intro h9
    rw [if_neg (by simp [h9])]

/-- C4 witness: a Tab event whose nesting adjustment is a no-op yields no
command and no `onChange` invocation. -/
theorem C4_witness :
    RichEditorClass.mapKeyToEditorCommand (fun _ s _ => s) (fun _ => none)
      EditorState.createEmpty { keyCode := 9 } = (none, none) := by
  obtain ⟨h1, _, h3⟩ :=
    (C4_mapKeyToEditorCommand_spec (fun _ s _ => s) (fun _ => none)
      EditorState.createEmpty { keyCode := 9 }).1 rfl
  exact Prod.ext_iff.mpr ⟨h1, h3 rfl⟩

/-- Helper: when no catalog entry matches the block type, the rendered
button row has no active button. -/
theorem activeFilter_length_zero (l : List BlockType) (bt : String)
    (h : ∀ t ∈ l, t.style ≠ bt) :
    ((l.map (fun t =>
        ({ label := t.label, style := t.style, active := t.style == bt } : StyleButtonView))).filter
      (fun v => v.active)).length = 0 := by
  rw [List.length_eq_zero, List.filter_eq_nil_iff]
  intro v hv
  simp only [List.mem_map] at hv
  obtain ⟨t, ht, rfl⟩ := hv
  simp [h t ht]

/-- Helper: when the catalog's styleIds are pairwise distinct, at most one
rendered button is active. -/
theorem activeFilter_length_le_one (l : List BlockType) (bt : String)
    (hnd : (l.map BlockType.style).Nodup) :
    ((l.map (fun t =>
        ({ label := t.label, style := t.style, active := t.style == bt } : StyleButtonView))).filter
      (fun v => v.active)).length ≤ 1 := by
  have h1 : ((l.map (fun t =>
      ({ label := t.label, style := t.style, active := t.style == bt } : StyleButtonView))).filter
        (fun v => v.active)).length = (l.map BlockType.style).count bt := by
    rw [← List.countP_eq_length_filter, List.countP_map, List.count, List.countP_map]
    rfl
  rw [h1]
  exact List.nodup_iff_count_le_one.mp hnd bt

/-- C6: when the block containing the selection's start position is `b`,
`BlockStyleControls` marks a button active exactly when its styleId equals
the type of `b`; since the catalog's styleIds are pairwise distinct, at
most one button is active; and when the current type is "unstyled" (which
matches no catalog entry) no button is active. -/
theorem C6_blockStyleControls_active (s : EditorState) (b : ContentBlock)
    (h : s.getCurrentContent.getBlockForKey s.getSelection.getStartKey = some b) :
    (∀ v ∈ BlockStyleControls s, (v.active = true ↔ v.style = b.getType))
    ∧ ((BlockStyleControls s).filter (fun v => v.active)).length ≤ 1
    ∧ (b.getType = "unstyled" → ∀ v ∈ BlockStyleControls s, v.active = false) := by
  have hbt : s.getCurrentContent.blockTypeForKey s.getSelection.getStartKey = b.getType := by
    simp [ContentState.blockTypeForKey, h]
  have hBSC : BlockStyleControls s = BLOCK_TYPES.map (fun t =>
      { label := t.label, style := t.style, active := t.style == b.getType }) := by
    simp only [BlockStyleControls, hbt]
  refine ⟨?_, ?_, ?_⟩
  · intro v hv
    rw [hBSC] at hv
    simp only [List.mem_map] at hv
    obtain ⟨t, _, rfl⟩ := hv
    simp
  · rw [hBSC]
    exact activeFilter_length_le_one BLOCK_TYPES b.getType (by decide)
  · intro hbu v hv
    rw [hBSC] at hv
    simp only [List.mem_map] at hv
    obtain ⟨t, ht, rfl⟩ := hv
    have hne : t.style ≠ "unstyled" := by
      have hall : ∀ u ∈ BLOCK_TYPES, u.style ≠ "unstyled" := by decide
      exact hall t ht
    simp [hbu, hne]

/-- C6 witness: on the empty document (current block type "unstyled") at
most one block control is active. -/
theorem C6_witness :
    ((BlockStyleControls EditorState.createEmpty).filter (fun v => v.active)).length ≤ 1 :=
  (C6_blockStyleControls_active EditorState.createEmpty
    { key := "b1", blockType := "unstyled", text := "" } rfl).2.1

/-- C7: every inline-style button rendered by `InlineStyleControls` is
active exactly when its styleId is a member of the engine's current
inline-style set at the selection. -/
theorem C7_inlineStyleControls_active (s : EditorState) :
    ∀ v ∈ InlineStyleControls s, v.active = s.getCurrentInlineStyle.contains v.style := by
  intro v hv
  simp only [InlineStyleControls, List.mem_map] at hv
  obtain ⟨t, _, rfl⟩ := hv
  rfl

/-- C7 witness: after toggling BOLD on the empty document, the Bold button
is displayed active exactly as the engine reports BOLD in its set. -/
theorem C7_witness :
    (StyleButtonView.mk "Bold" "BOLD" true).active =
      (RichUtils.toggleInlineStyle EditorState.createEmpty "BOLD").getCurrentInlineStyle.contains
        (StyleButtonView.mk "Bold" "BOLD" true).style :=
  C7_inlineStyleControls_active (RichUtils.toggleInlineStyle EditorState.createEmpty "BOLD")
    (StyleButtonView.mk "Bold" "BOLD" true) (by decide)

/-- C8 counterexample: on a handle where BOLD is already present, toggling
BOLD twice leaves BOLD present, so the claim as stated (quantified over
every handle) is false. -/
theorem C8_counterexample :
    ((RichEditorClass.toggleInlineStyle
        (RichEditorClass.toggleInlineStyle
          (RichUtils.toggleInlineStyle EditorState.createEmpty "BOLD") "BOLD") "BOLD").getCurrentInlineStyle.contains
      "BOLD") = true := by
  decide

/-- Helper: the engine's inline toggle on a state lacking the style
appends the style. -/
theorem toggleInlineStyle_of_absent (s : EditorState) (style : String)
    (h : style ∉ s.inlineStyles) :
    RichUtils.toggleInlineStyle s style =
      { s with inlineStyles := s.inlineStyles ++ [style] } := by
  unfold RichUtils.toggleInlineStyle
  rw [if_neg (by simpa using h)]

/-- Helper: the engine's inline toggle on a state holding the style
filters it out. -/
theorem toggleInlineStyle_of_present (s : EditorState) (style : String)
    (h : style ∈ s.inlineStyles) :
    RichUtils.toggleInlineStyle s style =
      { s with inlineStyles := s.inlineStyles.filter (fun x => x != style) } := by
  unfold RichUtils.toggleInlineStyle
  rw [if_pos (by simpa using h)]

/-- C8 (amended): for every handle in which the style is absent from the
inline-style set at the selection, toggling it twice (on then off) returns
a state with that style absent again. -/
theorem C8_toggle_twice_absent (s : EditorState) (style : String)
    (h : s.getCurrentInlineStyle.contains style = false) :
    ((RichEditorClass.toggleInlineStyle
        (RichEditorClass.toggleInlineStyle s style) style).getCurrentInlineStyle.contains
      style) = false := by
  have hmem : style ∉ s.inlineStyles := by
    simp only [EditorState.getCurrentInlineStyle] at h
    simp_all
  unfold RichEditorClass.toggleInlineStyle
  rw [toggleInlineStyle_of_absent s style hmem]
  rw [toggleInlineStyle_of_present _ _ (by simp)]
  simp [EditorState.getCurrentInlineStyle]

/-- C8 witness: toggling BOLD twice on the empty document (BOLD initially
absent) leaves BOLD absent. -/
theorem C8_witness :
    ((RichEditorClass.toggleInlineStyle
        (RichEditorClass.toggleInlineStyle EditorState.createEmpty "BOLD") "BOLD").getCurrentInlineStyle.contains
      "BOLD") = false :=
  C8_toggle_twice_absent EditorState.createEmpty "BOLD" rfl
